import Mathlib

/-!
Verification of the feedsheild backend (`src/main.py`) against its
natural-language specification.

The development shallowly embeds the rate-limited background blocking
scheduler: the Quota Tracker (`auto_block_accounts`, main.py lines 235-273),
the Eligibility Filter and Cycle Driver (`start_auto_blocking`, lines
275-291), the signup/payment/account endpoints insofar as they touch the
persisted counters, and the SQLite `datetime(date, 'unixepoch', 'localtime')`
expression that the tracker uses to read a row's "last update" time.

Counters are modelled as `Nat` (the SQLite columns are non-negative
integers in all reachable states); clock instants are seconds since the
epoch as `Nat`.  Python's `(utcnow() - last_time).total_seconds() > 600`
agrees with truncated `Nat` subtraction `now - t > 600`: when `t > now` the
real difference is negative, and both sides of the comparison are false.
-/

namespace FeedShield

/-- Result of one `auto_block_accounts` invocation for one user
(main.py lines 235-273), at the level of the values the function read from
the store.  `blocked_count` / `daily_count` are the in-memory values of the
Python locals when the function returns; `dailyWrites` lists, in order, the
values written by the `INSERT OR REPLACE INTO daily_blocked_counts`
statements (lines 257-260 and 265-268); `userWrite` is the value written by
`UPDATE users SET blocked_count` (line 269) if that statement ran;
`recorded` is true exactly when the commit and the success log line
(lines 270-271) executed — the Python function returns `None`, so this flag
is the embedding of the spec's "returns true / an increment was recorded". -/
structure BlockResult where
  blocked_count : Nat
  daily_count : Nat
  dailyWrites : List Nat
  userWrite : Option Nat
  recorded : Bool
deriving DecidableEq

/-- Core of `auto_block_accounts` (main.py lines 251-271), as a function of
the values read at lines 238-249: the user's lifetime counter
`blocked_count`, today's window counter `daily_count`, the parsed
`last_updated` instant (seconds; `none` when the SQL expression was NULL or
the row was absent), and the current clock `now`.  Mirrors the source:
the whole body is guarded by `daily_count < 100`; inside, a reset to 0 is
written when a last-update instant exists and more than 600 seconds have
elapsed; then the count is re-checked and, if still below 100, both
counters are incremented and written. -/
def tryIncrement (blocked_count daily_count : Nat) (last_updated : Option Nat)
    (now : Nat) : BlockResult :=
  if daily_count < 100 then
    let reset : Bool :=
      match last_updated with
      | some t => now - t > 600
      | none => false
    let daily1 : Nat := if reset then 0 else daily_count
    let resetWrites : List Nat := if reset then [0] else []
    if daily1 < 100 then
      { blocked_count := blocked_count + 1
        daily_count := daily1 + 1
        dailyWrites := resetWrites ++ [daily1 + 1]
        userWrite := some (blocked_count + 1)
        recorded := true }
    else
      { blocked_count := blocked_count
        daily_count := daily1
        dailyWrites := resetWrites
        userWrite := none
        recorded := false }
  else
    { blocked_count := blocked_count
      daily_count := daily_count
      dailyWrites := []
      userWrite := none
      recorded := false }

/-- Recognises the bare numeric time values (`DDDDDDDDDD`, optionally with a
fractional part) that SQLite's `'unixepoch'` modifier accepts.  SQLite
applies the modifier only when the time value was given as a bare decimal
number; for any other string — in particular an ISO calendar-day string
such as `2026-10-12` — `datetime(x, 'unixepoch', ...)` evaluates to NULL. -/
def isSqliteNumeral (s : String) : Bool :=
  match s.data with
  | [] => false
  | c :: rest =>
    c.isDigit
      && (c :: rest).all (fun ch => ch.isDigit || ch == '.')
      && ((c :: rest).filter (fun ch => ch == '.')).length ≤ 1

/-- Numeric value of the digits of a string (fractional digits are folded in
by SQLite's own parser; claims in this development only inspect whether the
result is NULL, never the non-NULL value, so the integer part suffices). -/
def digitsValue (l : List Char) : Nat :=
  l.foldl (fun acc c => if c.isDigit then acc * 10 + (c.toNat - 48) else acc) 0

/-- Model of the SQL expression `datetime(date, 'unixepoch', 'localtime')`
from the SELECT at main.py lines 243-246: non-NULL exactly when `date` is a
bare numeric time value, in which case it denotes that instant (the
rendering as a `"%Y-%m-%d %H:%M:%S"` string and its re-parsing by
`datetime.strptime` at line 254 are inverse to each other, so the instant
is carried directly; the `'localtime'` shift is not observable by any
claim, which only exercise the NULL case). -/
def sqliteDatetimeUnixepochLocaltime (s : String) : Option Nat :=
  if isSqliteNumeral s then some (digitsValue s.data) else none

/-- The pair `(daily_count, last_updated)` read at main.py lines 247-249
from today's `daily_blocked_counts` row: the row's `blocked` field and the
`datetime(date, 'unixepoch', 'localtime')` of its `date` key (which the
WHERE clause fixes to `today`); `(0, none)` when the row is absent. -/
def readDaily (row : Option Nat) (today : String) : Nat × Option Nat :=
  match row with
  | some d => (d, sqliteDatetimeUnixepochLocaltime today)
  | none => (0, none)

/-- The full `auto_block_accounts` read-then-decide pipeline for one user:
read today's row, derive the last-update instant, and run the counter
logic.  `row` is the `blocked` value of the (user, today) row when present. -/
def tryIncrementFull (blocked_count : Nat) (row : Option Nat) (today : String)
    (now : Nat) : BlockResult :=
  let rd := readDaily row today
  tryIncrement blocked_count rd.1 rd.2 now

/-- Checks that a string has the `YYYY-MM-DD` shape produced by Python's
`datetime.utcnow().date().isoformat()` (main.py line 240). -/
def isIsoDay (s : String) : Bool :=
  match s.data with
  | [y1, y2, y3, y4, h1, m1, m2, h2, d1, d2] =>
    y1.isDigit && y2.isDigit && y3.isDigit && y4.isDigit
      && h1 == '-' && m1.isDigit && m2.isDigit
      && h2 == '-' && d1.isDigit && d2.isDigit
  | _ => false

/-- One step of the lifetime counter under a fresh-day increment
(`tryIncrement` with an absent window row); used to state that the lifetime
counter has no upper bound. -/
def lifetimeStep (b : Nat) : Nat :=
  (tryIncrement b 0 none 0).blocked_count

/-- Row of the `users` table (main.py lines 106-114): id, email, password
hash, optional Stripe customer id, lifetime blocked count. -/
structure UserRow where
  id : Nat
  email : String
  password : String
  stripe_customer_id : Option String
  blocked_count : Nat
deriving DecidableEq

/-- Row of the `accounts` table (main.py lines 127-135). -/
structure AccountRow where
  user_id : Nat
  username : String
  is_connected : Bool
deriving DecidableEq

/-- Row of the `payment_history` table (main.py lines 141-150).  The
`amount` column is a SQLite REAL; no claim inspects amounts, so it is
carried as an integer number of cents. -/
structure PaymentRow where
  user_id : Nat
  amount : Int
  package : String
  date : String
deriving DecidableEq

/-- Row of the `daily_blocked_counts` table (main.py lines 156-164):
`(user_id, date)` is the primary key, `blocked` the window counter.  The
table has no timestamp column — the code derives `last_updated` from the
`date` key itself via `datetime(date, 'unixepoch', 'localtime')`. -/
structure DailyRow where
  user_id : Nat
  date : String
  blocked : Nat
deriving DecidableEq

/-- The persisted SQLite database. -/
structure Store where
  users : List UserRow
  accounts : List AccountRow
  payments : List PaymentRow
  daily : List DailyRow
deriving DecidableEq

/-- `SELECT * FROM users WHERE id = ?` followed by `fetchone()`: first row
with the given id, if any. -/
def lookupUser (users : List UserRow) (uid : Nat) : Option UserRow :=
  (users.filter (fun u => u.id == uid)).head?

/-- Lifetime blocked count of the user with the given id, if present. -/
def blockedOfList (users : List UserRow) (uid : Nat) : Option Nat :=
  (lookupUser users uid).map (fun u => u.blocked_count)

/-- Lifetime blocked count of a user in a store. -/
def blockedOf (st : Store) (uid : Nat) : Option Nat :=
  blockedOfList st.users uid

/-- The (user, date) row of `daily_blocked_counts`, if present. -/
def lookupDaily (rows : List DailyRow) (uid : Nat) (date : String) :
    Option DailyRow :=
  (rows.filter (fun r => r.user_id == uid && r.date == date)).head?

/-- `UPDATE users SET blocked_count = ? WHERE id = ?` (main.py line 269). -/
def setBlocked (uid v : Nat) (users : List UserRow) : List UserRow :=
  users.map (fun u => if u.id == uid then { u with blocked_count := v } else u)

/-- `UPDATE users SET stripe_customer_id = ? WHERE id = ?`
(main.py line 490). -/
def setStripe (uid : Nat) (c : Option String) (users : List UserRow) :
    List UserRow :=
  users.map (fun u =>
    if u.id == uid then { u with stripe_customer_id := c } else u)

/-- `INSERT OR REPLACE INTO daily_blocked_counts` (main.py lines 257-260 and
265-268): replace the `(user_id, date)` row's `blocked` value if the row
exists, else insert a new row. -/
def upsertDaily (uid : Nat) (date : String) (v : Nat) (rows : List DailyRow) :
    List DailyRow :=
  if rows.any (fun r => r.user_id == uid && r.date == date) then
    rows.map (fun r =>
      if r.user_id == uid && r.date == date then { r with blocked := v } else r)
  else
    rows ++ [{ user_id := uid, date := date, blocked := v }]

/-- `INSERT OR REPLACE INTO accounts` (main.py lines 416-419): replace on
the `(user_id, username)` primary key, else insert. -/
def upsertAccount (uid : Nat) (uname : String) (conn : Bool)
    (rows : List AccountRow) : List AccountRow :=
  if rows.any (fun r => r.user_id == uid && r.username == uname) then
    rows.map (fun r =>
      if r.user_id == uid && r.username == uname then
        { r with is_connected := conn }
      else r)
  else
    rows ++ [{ user_id := uid, username := uname, is_connected := conn }]

/-- The id AUTOINCREMENT assigns to a freshly inserted user row. -/
def nextId (st : Store) : Nat :=
  (st.users.map (fun u => u.id)).foldr max 0 + 1

/-- `SELECT id FROM users WHERE EXISTS (SELECT 1 FROM payment_history WHERE
user_id = users.id)` (main.py line 281): the ids of users having at least
one payment row.  `users` are the ids of the `users` table rows and
`payments` the `user_id` column of `payment_history`. -/
def paidUsers (users : List Nat) (payments : List Nat) : List Nat :=
  users.filter (fun u => payments.any (fun p => p == u))

/-- The per-user connectivity test of the cycle (main.py lines 284-286):
`SELECT is_connected FROM accounts WHERE user_id = ?` followed by
`fetchone()` — only the FIRST account row of the user is fetched, and the
user passes iff that row exists and has `is_connected` true. -/
def firstAccountConnected (accounts : List AccountRow) (uid : Nat) : Bool :=
  match (accounts.filter (fun a => a.user_id == uid)).head? with
  | some a => a.is_connected
  | none => false

/-- The set of users for which one cycle of `start_auto_blocking`
(main.py lines 281-287) invokes `auto_block_accounts`: the paid users whose
first account row is connected. -/
def selectedForBlocking (users : List Nat) (payments : List Nat)
    (accounts : List AccountRow) : List Nat :=
  (paidUsers users payments).filter (fun u => firstAccountConnected accounts u)

/-- A single write statement that `auto_block_accounts` can execute. -/
inductive WriteOp where
  | daily (uid : Nat) (date : String) (v : Nat)
  | userBlocked (uid : Nat) (v : Nat)
deriving DecidableEq

/-- Effect of one write statement on the database. -/
def applyWrite (w : WriteOp) (st : Store) : Store :=
  match w with
  | .daily uid date v => { st with daily := upsertDaily uid date v st.daily }
  | .userBlocked uid v => { st with users := setBlocked uid v st.users }

/-- A `sqlite3` connection: the committed database plus the writes of the
currently open (not yet committed) transaction.  Python's `sqlite3` opens a
transaction implicitly at the first DML statement and, crucially, a caught
exception does NOT roll it back — the pending writes stay attached to the
connection. -/
structure Conn where
  committed : Store
  pending : List WriteOp
deriving DecidableEq

/-- What a read on the connection observes: the committed state overlaid
with the connection's own uncommitted writes (SQLite reads see the writes
of their own open transaction). -/
def overlayStore (c : Conn) : Store :=
  c.pending.foldl (fun s w => applyWrite w s) c.committed

/-- `db.commit()` (main.py line 270): publish every pending write. -/
def commitConn (c : Conn) : Conn :=
  { committed := overlayStore c, pending := [] }

/-- Outcome of one `auto_block_accounts` call: `ok` (no exception),
`caughtDbError` (a `sqlite3.Error` was raised by some statement and caught
by the handler at main.py lines 272-273), or `uncaught` (a non-sqlite
exception escaped the function — e.g. the `TypeError` from subscripting the
`None` returned by `fetchone()` when the user row is missing, line 239). -/
inductive CallOutcome where
  | ok
  | caughtDbError
  | uncaught
deriving DecidableEq

/-- Execute one write statement, or fail when the fault injector marks this
statement index as the one raising `sqlite3.Error`.  On success the write
joins the connection's open transaction. -/
def tryWrite (w : WriteOp) (failAt : Option Nat) (idx : Nat) (c : Conn) :
    Option Conn :=
  if failAt == some idx then none
  else some { c with pending := c.pending ++ [w] }

/-- The increment half of `auto_block_accounts` (main.py lines 262-271):
write the new window count, write the new lifetime count, then commit.
`b`/`d` are the current counter values, `base` the statement index of the
first of these writes (0 normally, 1 when the reset write already ran). -/
def recordIncrement (uid : Nat) (today : String) (b d : Nat)
    (failAt : Option Nat) (base : Nat) (c : Conn) : Conn × CallOutcome :=
  match tryWrite (.daily uid today (d + 1)) failAt base c with
  | none => (c, .caughtDbError)
  | some c1 =>
    match tryWrite (.userBlocked uid (b + 1)) failAt (base + 1) c1 with
    | none => (c1, .caughtDbError)
    | some c2 =>
      if failAt == some (base + 2) then (c2, .caughtDbError)
      else (commitConn c2, .ok)

/-- One `auto_block_accounts(user_id, db)` call (main.py lines 235-273) on a
connection, with fault injection: `failAt = some k` makes the k-th
write/commit statement of this call raise `sqlite3.Error` (the handler at
lines 272-273 catches it and the function returns; nothing is rolled
back).  Reads go through the connection's overlay. -/
def autoBlockConn (uid : Nat) (now : Nat) (today : String)
    (failAt : Option Nat) (c : Conn) : Conn × CallOutcome :=
  match lookupUser (overlayStore c).users uid with
  | none => (c, .uncaught)
  | some u =>
    let rd := readDaily ((lookupDaily (overlayStore c).daily uid today).map
      (fun r => r.blocked)) today
    let d0 := rd.1
    let lu := rd.2
    if d0 < 100 then
      let reset : Bool :=
        match lu with
        | some t => now - t > 600
        | none => false
      if reset then
        match tryWrite (.daily uid today 0) failAt 0 c with
        | none => (c, .caughtDbError)
        | some c1 => recordIncrement uid today u.blocked_count 0 failAt 1 c1
      else
        if d0 < 100 then recordIncrement uid today u.blocked_count d0 failAt 0 c
        else (c, .ok)
    else (c, .ok)

/-- The per-user body of one cycle of `start_auto_blocking` (main.py lines
283-287): for each paid user, fetch the first account row and, when it is
connected, call `auto_block_accounts` on the shared connection.  An
`uncaught` exception aborts the rest of the cycle (it propagates to the
driver's `except Exception` handler); a caught `sqlite3.Error` does not.
Returns the connection and whether the cycle ran to completion. -/
def runCycle (uids : List Nat) (now : Nat) (today : String)
    (faults : Nat → Option Nat) (c : Conn) : Conn × Bool :=
  match uids with
  | [] => (c, true)
  | uid :: rest =>
    if firstAccountConnected (overlayStore c).accounts uid then
      match autoBlockConn uid now today (faults uid) c with
      | (c1, .uncaught) => (c1, false)
      | (c1, _) => runCycle rest now today faults c1
    else runCycle rest now today faults c

/-- One iteration of the `start_auto_blocking` loop (main.py lines 276-291):
open a fresh connection on the current database, enumerate the paid users,
run the cycle, and close the connection (closing with an open transaction
rolls the remaining pending writes back; any exception is caught by the
`except Exception` handler and the loop sleeps and wakes again
regardless).  The resulting database is the committed state. -/
def startAutoBlockingStep (st : Store) (now : Nat) (today : String)
    (faults : Nat → Option Nat) : Store :=
  (runCycle (paidUsers (st.users.map (fun u => u.id))
      (st.payments.map (fun p => p.user_id)))
    now today faults { committed := st, pending := [] }).1.committed

/-- The store-visible endpoint operations of the application.  `login`,
`dashboard` and `create_payment_intent` execute no DML; `confirmPayment`
models the `payment_intent.status == "succeeded"` branch (main.py lines
456-464) — the other branch writes nothing; `autoBlock` is one fault-free
`auto_block_accounts` call committed on its own connection. -/
inductive Op where
  | signup (email password : String)
  | loginOp
  | dashboardOp
  | connectInstagram (uid : Nat)
  | createPaymentIntent
  | confirmPayment (uid : Nat) (amount : Int) (package date : String)
  | createSubscription (uid : Nat) (customer : String)
  | autoBlock (uid : Nat) (now : Nat) (today : String)

/-- Effect of each endpoint on the persisted store.  `signup` (main.py
lines 309-334) rejects an already-registered email (HTTP 400, no write) and
otherwise inserts a user row with `blocked_count = 0`; `connect_instagram`
(lines 411-425) upserts the row `(uid, "@instagram_acc", TRUE)`;
`create_subscription` (lines 478-515) sets the Stripe customer id only when
it was NULL. -/
def applyOp (op : Op) (st : Store) : Store :=
  match op with
  | .signup email password =>
    if st.users.any (fun u => u.email == email) then st
    else
      { st with users := st.users ++
          [{ id := nextId st, email := email, password := password,
             stripe_customer_id := none, blocked_count := 0 }] }
  | .loginOp => st
  | .dashboardOp => st
  | .connectInstagram uid =>
    { st with accounts := upsertAccount uid "@instagram_acc" true st.accounts }
  | .createPaymentIntent => st
  | .confirmPayment uid amount package date =>
    { st with payments := st.payments ++
        [{ user_id := uid, amount := amount, package := package, date := date }] }
  | .createSubscription uid customer =>
    match lookupUser st.users uid with
    | none => st
    | some u =>
      if u.stripe_customer_id == none then
        { st with users := setStripe uid (some customer) st.users }
      else st
  | .autoBlock uid now today =>
    (autoBlockConn uid now today none { committed := st, pending := [] }).1.committed

/-- Program counter and registers of one in-flight `auto_block_accounts`
call in the interleaving model: `breg`/`dreg` hold the values the call has
read for the lifetime and window counters. -/
structure CallState where
  pc : Nat
  breg : Nat
  dreg : Nat
  recorded : Bool
deriving DecidableEq

/-- The shared counters of one user as two calls race on them. -/
structure SharedCounters where
  blocked : Nat
  daily : Nat
deriving DecidableEq

/-- One atomic statement of an `auto_block_accounts` call against the shared
counters, for the interleaving analysis of two simultaneous calls.  Each SQL
statement is atomic; the call as a whole is not.  The statements follow
main.py lines 238-271 specialised to a window row whose read-back
`last_updated` is NULL (which `sqliteDatetimeUnixepochLocaltime` yields for
every ISO-day `date` key, so the reset branch is skipped): pc 0 reads the
lifetime counter, pc 1 reads the window counter, pc 2 is the
`daily_count < 100` test, pc 3 writes the incremented window counter, pc 4
writes the incremented lifetime counter and commits (recording the
increment). -/
def stepCall (s : SharedCounters) (cs : CallState) : SharedCounters × CallState :=
  match cs.pc with
  | 0 => (s, { cs with breg := s.blocked, pc := 1 })
  | 1 => (s, { cs with dreg := s.daily, pc := 2 })
  | 2 =>
    if cs.dreg < 100 then (s, { cs with pc := 3 })
    else (s, { cs with pc := 5 })
  | 3 => ({ s with daily := cs.dreg + 1 }, { cs with pc := 4 })
  | 4 => ({ s with blocked := cs.breg + 1 }, { cs with pc := 5, recorded := true })
  | _ => (s, cs)

/-- Run two concurrent `auto_block_accounts` calls under a schedule: each
`true` entry steps the first call, each `false` entry the second. -/
def runSched (sched : List Bool) (s : SharedCounters) (c1 c2 : CallState) :
    SharedCounters × CallState × CallState :=
  match sched with
  | [] => (s, c1, c2)
  | b :: rest =>
    if b then
      let r := stepCall s c1
      runSched rest r.1 r.2 c2
    else
      let r := stepCall s c2
      runSched rest r.1 c1 r.2

/-- A call that has not started yet. -/
def initCall : CallState :=
  { pc := 0, breg := 0, dreg := 0, recorded := false }

/-- A concrete two-user database used to exercise the failure semantics of
a cycle: both users are paid and connected, neither has a window row yet. -/
def twoUserStore : Store :=
  { users :=
      [{ id := 1, email := "a@x.com", password := "h1",
         stripe_customer_id := none, blocked_count := 5 },
       { id := 2, email := "b@x.com", password := "h2",
         stripe_customer_id := none, blocked_count := 7 }]
    accounts :=
      [{ user_id := 1, username := "@instagram_acc", is_connected := true },
       { user_id := 2, username := "@instagram_acc", is_connected := true }]
    payments :=
      [{ user_id := 1, amount := 999, package := "basic", date := "2026-10-01" },
       { user_id := 2, amount := 999, package := "basic", date := "2026-10-01" }]
    daily := [] }

/-- Fault injection making user 1's second write statement (the
`UPDATE users SET blocked_count`) raise `sqlite3.Error`, while every other
statement succeeds. -/
def faultUserOneUpdate : Nat → Option Nat :=
  fun uid => if uid == 1 then some 1 else none

/-- Every `tryIncrement` call lands in one of three shapes: a no-op, a plain
increment of the window counter, or a reset followed by an increment. -/
theorem tryIncrement_shape (b d : Nat) (lu : Option Nat) (now : Nat) :
    tryIncrement b d lu now
        = { blocked_count := b, daily_count := d, dailyWrites := [],
            userWrite := none, recorded := false }
    ∨ (d < 100 ∧ tryIncrement b d lu now
        = { blocked_count := b + 1, daily_count := d + 1, dailyWrites := [d + 1],
            userWrite := some (b + 1), recorded := true })
    ∨ (d < 100 ∧ tryIncrement b d lu now
        = { blocked_count := b + 1, daily_count := 1, dailyWrites := [0, 1],
            userWrite := some (b + 1), recorded := true }) := by
  rcases lu with _ | t
  · by_cases h : d < 100
    · exact Or.inr (Or.inl ⟨h, by simp [tryIncrement, h]⟩)
    · exact Or.inl (by simp [tryIncrement, h])
  · by_cases h : d < 100
    · by_cases hr : now - t > 600
      · exact Or.inr (Or.inr ⟨h, by simp [tryIncrement, h, hr]⟩)
      · exact Or.inr (Or.inl ⟨h, by simp [tryIncrement, h, hr]⟩)
    · exact Or.inl (by simp [tryIncrement, h])

/-- C1.  Counterexample to the claim: with the window counter at exactly
100 and a last update 1000 ≥ 600 seconds in the past, `auto_block_accounts`
does NOT reset and increment — the whole body is guarded by
`daily_count < 100` (main.py line 251), so at the cap nothing happens at
all: no reset, no write, no recorded increment. -/
theorem c1_reset_at_cap_counterexample :
    tryIncrement 5 100 (some 0) 1000
        = { blocked_count := 5, daily_count := 100, dailyWrites := [],
            userWrite := none, recorded := false }
      ∧ ¬ ((tryIncrement 5 100 (some 0) 1000).recorded = true
            ∧ (tryIncrement 5 100 (some 0) 1000).daily_count = 1
            ∧ (tryIncrement 5 100 (some 0) 1000).blocked_count = 6) := by
  decide

/-- C1 (amended).  For every user whose window counter equals 100,
`tryIncrement` (`auto_block_accounts`) is a no-op regardless of the
last-update time and the clock: no reset, no store write, counters
unchanged, no increment recorded.  The 600-second reset applies only while
the count is still below 100. -/
theorem c1_cap_noop_amended (b : Nat) (lu : Option Nat) (now : Nat) :
    tryIncrement b 100 lu now
      = { blocked_count := b, daily_count := 100, dailyWrites := [],
          userWrite := none, recorded := false } := by
  simp [tryIncrement]

/-- C3.  For a user with no window row for today (hence no prior update
timestamp and a window count of 0 < 100), `tryIncrement`
(`auto_block_accounts`) records an increment: the window count is written
as 1, the lifetime counter is incremented by 1, and the commit/log
(the spec's "returns true") executes. -/
theorem c3_fresh_row_increments (b : Nat) (today : String) (now : Nat) :
    tryIncrementFull b none today now
      = { blocked_count := b + 1, daily_count := 1, dailyWrites := [1],
          userWrite := some (b + 1), recorded := true } := by
  simp [tryIncrementFull, readDaily, tryIncrement]

/-- C4.  For a user whose window counter is below 100, when a prior update
instant exists and more than 600 seconds have elapsed, `tryIncrement`
(`auto_block_accounts`) first writes the reset value 0 to the store, then
re-checks and increments: the write sequence is [0, 1], the stored window
count after the call is 1, and the lifetime counter gains 1. -/
theorem c4_stale_reset_then_increment (b d t now : Nat)
    (hd : d < 100) (ht : now - t > 600) :
    tryIncrement b d (some t) now
      = { blocked_count := b + 1, daily_count := 1, dailyWrites := [0, 1],
          userWrite := some (b + 1), recorded := true } := by
  simp [tryIncrement, hd, ht]

/-- C4 witness at a concrete input. -/
theorem c4_stale_reset_then_increment_witness :
    tryIncrement 5 50 (some 0) 1000
      = { blocked_count := 6, daily_count := 1, dailyWrites := [0, 1],
          userWrite := some 6, recorded := true } :=
  c4_stale_reset_then_increment 5 50 0 1000 (by decide) (by decide)

/-- C5.  For a user whose window counter equals 100 and whose last update
was less than 600 seconds ago, `tryIncrement` (`auto_block_accounts`)
performs no store mutation: no daily write, no users write, both counters
keep their prior values, and no increment is recorded. -/
theorem c5_cap_recent_noop (b t now : Nat) (h : now - t < 600) :
    tryIncrement b 100 (some t) now
      = { blocked_count := b, daily_count := 100, dailyWrites := [],
          userWrite := none, recorded := false } := by
  simp [tryIncrement]

/-- C5 witness at a concrete input. -/
theorem c5_cap_recent_noop_witness :
    tryIncrement 7 0 (some 0) 100
        = tryIncrement 7 0 (some 0) 100
      ∧ tryIncrement 7 100 (some 0) 100
        = { blocked_count := 7, daily_count := 100, dailyWrites := [],
            userWrite := none, recorded := false } :=
  ⟨rfl, c5_cap_recent_noop 7 0 100 (by decide)⟩

/-- C6.  From any state whose window counter lies in [0, 100] and for any
clock and last-update reading, every window-count value that `tryIncrement`
(`auto_block_accounts`) writes again lies in [0, 100] (as does the final
in-memory count); the lifetime counter is a natural number that the call
either preserves or increments by exactly 1, and it has no upper bound:
n fresh-day increments starting from 0 reach exactly n. -/
theorem c6_window_writes_bounded (b d : Nat) (lu : Option Nat) (now : Nat)
    (hd : d ≤ 100) :
    (∀ v ∈ (tryIncrement b d lu now).dailyWrites, v ≤ 100)
      ∧ (tryIncrement b d lu now).daily_count ≤ 100
      ∧ ((tryIncrement b d lu now).blocked_count = b
          ∨ (tryIncrement b d lu now).blocked_count = b + 1)
      ∧ (∀ n : Nat, lifetimeStep^[n] 0 = n) := by
  have hiter : ∀ n : Nat, lifetimeStep^[n] 0 = n := by
    have hstep : ∀ x : Nat, lifetimeStep x = x + 1 := by
      intro x
      simp [lifetimeStep, tryIncrement]
    intro n
    induction n with
    | zero => simp
    | succ k ih => rw [Function.iterate_succ_apply', hstep, ih]
  rcases tryIncrement_shape b d lu now with h | ⟨hlt, h⟩ | ⟨hlt, h⟩ <;>
    rw [h] <;>
    refine ⟨?_, ?_, ?_, hiter⟩ <;>
    simp <;>
    omega

/-- C6 witness at a concrete input. -/
theorem c6_window_writes_bounded_witness :
    (∀ v ∈ (tryIncrement 3 99 none 0).dailyWrites, v ≤ 100)
      ∧ (tryIncrement 3 99 none 0).daily_count ≤ 100
      ∧ ((tryIncrement 3 99 none 0).blocked_count = 3
          ∨ (tryIncrement 3 99 none 0).blocked_count = 3 + 1)
      ∧ (∀ n : Nat, lifetimeStep^[n] 0 = n) :=
  c6_window_writes_bounded 3 99 none 0 (by decide)

/-- An ISO calendar-day string contains a hyphen (its fifth character). -/
theorem isoDay_hyphen (s : String) (h : isIsoDay s = true) : '-' ∈ s.data := by
  unfold isIsoDay at h
  rcases hl : s.data with
      _ | ⟨a1, _ | ⟨a2, _ | ⟨a3, _ | ⟨a4, _ | ⟨a5, _ | ⟨a6, _ | ⟨a7,
        _ | ⟨a8, _ | ⟨a9, _ | ⟨a10, _ | ⟨a11, tl⟩⟩⟩⟩⟩⟩⟩⟩⟩⟩⟩ <;>
    rw [hl] at h <;> simp_all

/-- A string containing a hyphen is not a bare numeric time value, so the
`'unixepoch'` modifier rejects it. -/
theorem isSqliteNumeral_eq_false_of_hyphen (s : String) (h : '-' ∈ s.data) :
    isSqliteNumeral s = false := by
  unfold isSqliteNumeral
  cases hs : s.data with
  | nil => rfl
  | cons c rest =>
    rw [hs] at h
    by_contra hb
    simp only [Bool.not_eq_false, Bool.and_eq_true] at hb
    obtain ⟨⟨_, hall⟩, _⟩ := hb
    have hmem := List.all_eq_true.mp hall _ h
    simp at hmem

/-- On an ISO calendar-day string, SQLite's
`datetime(date, 'unixepoch', 'localtime')` evaluates to NULL. -/
theorem sqliteDatetime_isoDay (s : String) (h : isIsoDay s = true) :
    sqliteDatetimeUnixepochLocaltime s = none := by
  unfold sqliteDatetimeUnixepochLocaltime
  rw [isSqliteNumeral_eq_false_of_hyphen s (isoDay_hyphen s h)]
  rfl

/-- C10.  Every window row that `tryIncrement` itself writes has an ISO
calendar-day string as its `date` key; applying
`datetime(date, 'unixepoch', 'localtime')` to such a key yields NULL, so
the last-update instant `auto_block_accounts` reads back is `none`, the
600-second reset branch never executes on such rows, the window count after
a call is never below the count before it, and once the count is 100 the
call changes nothing and records nothing, regardless of the clock. -/
theorem c10_reset_branch_dead_on_iso_dates (b : Nat) (row : Option Nat)
    (today : String) (now : Nat) (h : isIsoDay today = true) :
    (readDaily row today).2 = none
      ∧ (readDaily row today).1 ≤ (tryIncrementFull b row today now).daily_count
      ∧ (row = some 100 → tryIncrementFull b row today now
          = { blocked_count := b, daily_count := 100, dailyWrites := [],
              userWrite := none, recorded := false }) := by
  have hnone : sqliteDatetimeUnixepochLocaltime today = none :=
    sqliteDatetime_isoDay today h
  rcases row with _ | d
  · refine ⟨rfl, ?_, ?_⟩
    · simp [tryIncrementFull, readDaily, tryIncrement]
    · intro hc
      cases hc
  · refine ⟨by simp [readDaily, hnone], ?_, ?_⟩
    · by_cases hd : d < 100
      · simp [tryIncrementFull, readDaily, hnone, tryIncrement, hd]
      · simp [tryIncrementFull, readDaily, hnone, tryIncrement, hd]
    · intro hc
      injection hc with hc'
      subst hc'
      simp [tryIncrementFull, readDaily, hnone, tryIncrement]

/-- C10 witness at a concrete input. -/
theorem c10_reset_branch_dead_on_iso_dates_witness :
    isIsoDay "2026-10-12" = true
      ∧ ((readDaily (some 100) "2026-10-12").2 = none
          ∧ (readDaily (some 100) "2026-10-12").1
              ≤ (tryIncrementFull 3 (some 100) "2026-10-12" 1000000000).daily_count
          ∧ (some 100 = some 100 → tryIncrementFull 3 (some 100) "2026-10-12" 1000000000
              = { blocked_count := 3, daily_count := 100, dailyWrites := [],
                  userWrite := none, recorded := false })) :=
  ⟨by decide,
    c10_reset_branch_dead_on_iso_dates 3 (some 100) "2026-10-12" 1000000000
      (by decide)⟩

/-- C2.  Counterexample to the claim: user 1 has a payment record and an
account row with `is_connected = true`, yet the cycle does not select them,
because `start_auto_blocking` fetches only the FIRST account row
(`fetchone()`, main.py line 285) and user 1's first row is not connected. -/
theorem c2_second_account_counterexample :
    selectedForBlocking [1] [1]
        [{ user_id := 1, username := "alpha", is_connected := false },
         { user_id := 1, username := "beta", is_connected := true }] = []
      ∧ (([{ user_id := 1, username := "alpha", is_connected := false },
           { user_id := 1, username := "beta", is_connected := true }] :
            List AccountRow).any
            (fun a => a.user_id == 1 && a.is_connected)) = true := by
  decide

/-- C2 (amended).  The per-cycle selection of `start_auto_blocking` yields a
user iff the user exists, at least one payment record exists for them, and
the FIRST of their account rows (in table order) has `is_connected = true`;
a paying user whose first account row is not connected is excluded even if
a later row is connected. -/
theorem c2_selected_iff_first_account_connected (users payments : List Nat)
    (accounts : List AccountRow) (u : Nat) :
    u ∈ selectedForBlocking users payments accounts
      ↔ u ∈ users ∧ payments.any (fun p => p == u) = true
          ∧ firstAccountConnected accounts u = true := by
  simp only [selectedForBlocking, paidUsers, List.mem_filter, and_assoc]

/-- C9.  Counterexample to the claim: with the window counter at 99 (one
slot left) and the lifetime counter at 5, interleaving two
`auto_block_accounts` calls statement by statement (both read before either
writes) makes BOTH calls record an increment — the read-modify-write is
plain read-then-write with no transaction or compare-and-swap, so the
updates collide: the final window count is 100 but the lifetime counter
gains only 1 despite two recorded increments (a lost update). -/
theorem c9_interleaved_double_success_counterexample :
    (runSched [true, false, true, false, true, false, true, false, true, false]
        { blocked := 5, daily := 99 } initCall initCall).2.1.recorded = true
      ∧ (runSched [true, false, true, false, true, false, true, false, true, false]
          { blocked := 5, daily := 99 } initCall initCall).2.2.recorded = true
      ∧ (runSched [true, false, true, false, true, false, true, false, true, false]
          { blocked := 5, daily := 99 } initCall initCall).1.daily = 100
      ∧ (runSched [true, false, true, false, true, false, true, false, true, false]
          { blocked := 5, daily := 99 } initCall initCall).1.blocked = 6 := by
  decide

/-- C9 (amended).  When the two calls are serialised — which is how the
program actually runs them: the cycle driver awaits each
`auto_block_accounts` call before the next — exactly one of two calls at
window count 99 records an increment and the final window count is 100;
under statement-level interleaving the read-modify-write is not atomic and
both calls can record. -/
theorem c9_sequential_exactly_one_succeeds (b : Nat) :
    (runSched [true, true, true, true, true, false, false, false, false, false]
        { blocked := b, daily := 99 } initCall initCall).2.1.recorded = true
      ∧ (runSched [true, true, true, true, true, false, false, false, false, false]
          { blocked := b, daily := 99 } initCall initCall).2.2.recorded = false
      ∧ (runSched [true, true, true, true, true, false, false, false, false, false]
          { blocked := b, daily := 99 } initCall initCall).1.daily = 100
      ∧ (runSched [true, true, true, true, true, false, false, false, false, false]
          { blocked := b, daily := 99 } initCall initCall).1.blocked = b + 1 := by
  simp [runSched, stepCall, initCall]

/-- A successful write statement only grows the open transaction; the
committed database is untouched. -/
theorem tryWrite_committed {w : WriteOp} {f : Option Nat} {i : Nat}
    {c c' : Conn} (h : tryWrite w f i c = some c') :
    c'.committed = c.committed := by
  unfold tryWrite at h
  split at h
  · cases h
  · cases h
    rfl

/-- If the increment half of a call ends in a caught `sqlite3.Error`, no
commit happened, so the committed database is unchanged (though pending
writes may remain in the open transaction). -/
theorem recordIncrement_caught (uid : Nat) (today : String) (b d : Nat)
    (failAt : Option Nat) (base : Nat) (c : Conn)
    (h : (recordIncrement uid today b d failAt base c).2
      = CallOutcome.caughtDbError) :
    (recordIncrement uid today b d failAt base c).1.committed = c.committed := by
  unfold recordIncrement at h ⊢
  cases h0 : tryWrite (.daily uid today (d + 1)) failAt base c with
  | none => simp [h0]
  | some c1 =>
    simp only [h0] at h ⊢
    cases h1 : tryWrite (.userBlocked uid (b + 1)) failAt (base + 1) c1 with
    | none =>
      simp only [h1] at h ⊢
      exact tryWrite_committed h0
    | some c2 =>
      simp only [h1] at h ⊢
      by_cases h2 : failAt = some (base + 2)
      · rw [if_pos (by simp [h2])]
        show c2.committed = c.committed
        rw [tryWrite_committed h1, tryWrite_committed h0]
      · rw [if_neg (by simp [h2])] at h
        simp at h

/-- If a whole `auto_block_accounts` call ends in a caught `sqlite3.Error`,
the committed database is unchanged. -/
theorem autoBlockConn_caught_committed (uid now : Nat) (today : String)
    (failAt : Option Nat) (c : Conn)
    (h : (autoBlockConn uid now today failAt c).2 = CallOutcome.caughtDbError) :
    (autoBlockConn uid now today failAt c).1.committed = c.committed := by
  unfold autoBlockConn at h ⊢
  cases hlk : lookupUser (overlayStore c).users uid with
  | none => rfl
  | some u =>
    rw [hlk] at h
    simp only at h ⊢
    split at h
    · rename_i hd
      rw [if_pos hd]
      split at h
      · rename_i hreset
        rw [if_pos hreset]
        cases h0 : tryWrite (.daily uid today 0) failAt 0 c with
        | none => simp [h0]
        | some c1 =>
          rw [h0] at h
          simp only at h
          simp only [h0]
          rw [recordIncrement_caught uid today u.blocked_count 0 failAt 1 c1 h,
            tryWrite_committed h0]
      · rename_i hreset
        rw [if_neg hreset, if_pos hd]
        exact recordIncrement_caught uid today u.blocked_count _ failAt 0 c h
    · rename_i hd
      rw [if_neg hd]

/-- C8 (amended).  When a persistence error is raised inside
`auto_block_accounts` for one user, the handler at main.py lines 272-273
catches it: no exception propagates, the committed database is unchanged at
the point the call returns, and the cycle goes on to process the remaining
users (the next wake is scheduled unconditionally, since the
`asyncio.sleep` at line 291 is outside the `try`).  However — see the C8
counterexample — the writes executed before the error stay pending in the
shared connection's open transaction, and a commit performed for a later
user in the same cycle publishes them, so a partial counter update can
become visible. -/
theorem c8_caught_error_committed_unchanged (uid now : Nat) (today : String)
    (failAt : Option Nat) (c : Conn) (rest : List Nat)
    (faults : Nat → Option Nat)
    (h : (autoBlockConn uid now today failAt c).2 = CallOutcome.caughtDbError)
    (hf : faults uid = failAt)
    (hconn : firstAccountConnected (overlayStore c).accounts uid = true) :
    (autoBlockConn uid now today failAt c).1.committed = c.committed
      ∧ runCycle (uid :: rest) now today faults c
          = runCycle rest now today faults
              (autoBlockConn uid now today failAt c).1 := by
  refine ⟨autoBlockConn_caught_committed uid now today failAt c h, ?_⟩
  rcases hres : autoBlockConn uid now today failAt c with ⟨c1, o⟩
  rw [hres] at h
  change o = CallOutcome.caughtDbError at h
  subst h
  have hstep : runCycle (uid :: rest) now today faults c
      = if firstAccountConnected (overlayStore c).accounts uid = true then
          match autoBlockConn uid now today (faults uid) c with
          | (c1, CallOutcome.uncaught) => (c1, false)
          | (c1, _) => runCycle rest now today faults c1
        else runCycle rest now today faults c := rfl
  rw [hstep, if_pos hconn, hf, hres]

/-- C8 witness: a concrete caught failure (user 1's lifetime-counter UPDATE
raises) on the two-user database, inside a cycle that continues with
user 2. -/
theorem c8_caught_error_committed_unchanged_witness :
    ((autoBlockConn 1 0 "2026-10-12" (some 1)
        { committed := twoUserStore, pending := [] }).2
          = CallOutcome.caughtDbError
      ∧ faultUserOneUpdate 1 = some 1
      ∧ firstAccountConnected
          (overlayStore { committed := twoUserStore, pending := [] }).accounts 1
            = true)
    ∧ ((autoBlockConn 1 0 "2026-10-12" (some 1)
          { committed := twoUserStore, pending := [] }).1.committed
            = ({ committed := twoUserStore, pending := [] } : Conn).committed
        ∧ runCycle [1, 2] 0 "2026-10-12" faultUserOneUpdate
            { committed := twoUserStore, pending := [] }
          = runCycle [2] 0 "2026-10-12" faultUserOneUpdate
              (autoBlockConn 1 0 "2026-10-12" (some 1)
                { committed := twoUserStore, pending := [] }).1) :=
  ⟨⟨by decide, by decide, by decide⟩,
    c8_caught_error_committed_unchanged 1 0 "2026-10-12" (some 1)
      { committed := twoUserStore, pending := [] } [2] faultUserOneUpdate
      (by decide) (by decide) (by decide)⟩

/-- C8.  Counterexample to the claim's "no partial counter update becomes
visible / state unchanged on error": on the two-user database, user 1's
window-counter INSERT succeeds but the lifetime-counter UPDATE raises a
caught `sqlite3.Error`.  Nothing rolls the open transaction back, and when
the cycle then processes user 2 on the same shared connection, user 2's
`db.commit()` publishes user 1's dangling write: afterwards user 1's window
count for the day is 1 while their lifetime counter is still 5 — a partial
update became visible although user 1's call failed. -/
theorem c8_partial_write_visible_counterexample :
    blockedOf (startAutoBlockingStep twoUserStore 0 "2026-10-12"
        faultUserOneUpdate) 1 = some 5
      ∧ ((lookupDaily (startAutoBlockingStep twoUserStore 0 "2026-10-12"
            faultUserOneUpdate).daily 1 "2026-10-12").map
          (fun r => r.blocked)) = some 1
      ∧ blockedOf (startAutoBlockingStep twoUserStore 0 "2026-10-12"
          faultUserOneUpdate) 2 = some 8 := by
  decide

/-- Unfolding of the user lookup over a cons cell. -/
theorem lookupUser_cons (a : UserRow) (l : List UserRow) (uid : Nat) :
    lookupUser (a :: l) uid
      = if a.id == uid then some a else lookupUser l uid := by
  by_cases h : a.id = uid <;> simp [lookupUser, List.filter_cons, h]

/-- Unfolding of `setBlocked` over a cons cell. -/
theorem setBlocked_cons (a : UserRow) (l : List UserRow) (uid v : Nat) :
    setBlocked uid v (a :: l)
      = (if a.id == uid then { a with blocked_count := v } else a)
          :: setBlocked uid v l := rfl

/-- Unfolding of `setStripe` over a cons cell. -/
theorem setStripe_cons (a : UserRow) (l : List UserRow) (uid : Nat)
    (cst : Option String) :
    setStripe uid cst (a :: l)
      = (if a.id == uid then { a with stripe_customer_id := cst } else a)
          :: setStripe uid cst l := rfl

/-- The lifetime-counter UPDATE rewrites exactly the targeted user's
lifetime count. -/
theorem blockedOfList_setBlocked_self (users : List UserRow) (uid v : Nat) :
    blockedOfList (setBlocked uid v users) uid
      = (blockedOfList users uid).map (fun _ => v) := by
  induction users with
  | nil => rfl
  | cons a l ih =>
    rw [setBlocked_cons]
    by_cases h : a.id = uid
    · simp [blockedOfList, lookupUser_cons, h]
    · simp only [blockedOfList, lookupUser_cons] at ih ⊢
      simp [h]
      simpa [blockedOfList] using ih

/-- The lifetime-counter UPDATE leaves every other user's lifetime count
unchanged. -/
theorem blockedOfList_setBlocked_ne (users : List UserRow) (uid v uid' : Nat)
    (h : uid' ≠ uid) :
    blockedOfList (setBlocked uid v users) uid' = blockedOfList users uid' := by
  have hne2 : uid ≠ uid' := fun e => h e.symm
  induction users with
  | nil => rfl
  | cons a l ih =>
    rw [setBlocked_cons]
    simp only [blockedOfList, lookupUser_cons] at ih ⊢
    by_cases ha : a.id = uid
    · simp [ha, hne2, h, ih]
    · by_cases hb : a.id = uid'
      · simp [ha, hb, h]
      · simp [ha, hb, ih]

/-- A users-table rewrite that preserves ids and lifetime counts preserves
every lifetime-count lookup. -/
theorem blockedOfList_map_preserve (f : UserRow → UserRow)
    (hid : ∀ u, (f u).id = u.id)
    (hbc : ∀ u, (f u).blocked_count = u.blocked_count)
    (users : List UserRow) (uid : Nat) :
    blockedOfList (users.map f) uid = blockedOfList users uid := by
  induction users with
  | nil => rfl
  | cons a l ih =>
    rw [List.map_cons]
    simp only [blockedOfList, lookupUser_cons] at ih ⊢
    rw [hid a]
    by_cases hb : a.id = uid
    · simp [hb, hbc]
    · simp [hb, ih]

/-- The Stripe-customer UPDATE never changes any lifetime count. -/
theorem blockedOfList_setStripe (users : List UserRow) (uid : Nat)
    (cst : Option String) (uid' : Nat) :
    blockedOfList (setStripe uid cst users) uid' = blockedOfList users uid' := by
  unfold setStripe
  exact blockedOfList_map_preserve _
    (fun u => by by_cases h : u.id = uid <;> simp [h])
    (fun u => by by_cases h : u.id = uid <;> simp [h]) users uid'

/-- Looking a user up after appending one row: the old rows win, the new
row answers only if no old row matched. -/
theorem lookupUser_append_single (users : List UserRow) (r : UserRow)
    (uid : Nat) :
    lookupUser (users ++ [r]) uid
      = match lookupUser users uid with
        | some u => some u
        | none => if r.id == uid then some r else none := by
  induction users with
  | nil =>
    rw [List.nil_append, lookupUser_cons]
    rfl
  | cons a l ih =>
    rw [List.cons_append, lookupUser_cons, lookupUser_cons]
    by_cases h : a.id = uid <;> simp [h, ih]

/-- A fault-free write statement always succeeds and joins the open
transaction. -/
theorem tryWrite_nofault (w : WriteOp) (i : Nat) (c : Conn) :
    tryWrite w none i c = some { c with pending := c.pending ++ [w] } := rfl

/-- The fault-free increment half of a call appends its two writes and
commits. -/
theorem recordIncrement_nofault (uid : Nat) (today : String) (b d : Nat)
    (base : Nat) (c : Conn) :
    recordIncrement uid today b d none base c
      = (commitConn { c with pending := c.pending
            ++ [WriteOp.daily uid today (d + 1),
                WriteOp.userBlocked uid (b + 1)] }, CallOutcome.ok) := by
  unfold recordIncrement
  rw [tryWrite_nofault]
  simp only
  rw [tryWrite_nofault]
  simp [List.append_assoc]

/-- Effect of the lifetime-counter UPDATE inside a committed transaction:
the targeted user (present as `u`) gets the written value, everyone else is
untouched. -/
theorem blockedOf_userBlocked_step (s st : Store) (uid0 uid v : Nat)
    (u : UserRow) (husers : s.users = st.users)
    (hlk : lookupUser st.users uid0 = some u) :
    blockedOf (applyWrite (WriteOp.userBlocked uid0 v) s) uid = blockedOf st uid
    ∨ (uid = uid0 ∧ blockedOf st uid = some u.blocked_count
        ∧ blockedOf (applyWrite (WriteOp.userBlocked uid0 v) s) uid = some v) := by
  by_cases huid : uid = uid0
  · right
    refine ⟨huid, ?_, ?_⟩
    · rw [huid]
      unfold blockedOf blockedOfList
      rw [hlk]
      rfl
    · subst huid
      show blockedOfList (setBlocked uid v s.users) uid = some v
      rw [husers, blockedOfList_setBlocked_self]
      unfold blockedOfList
      rw [hlk]
      rfl
  · left
    show blockedOfList (setBlocked uid0 v s.users) uid = blockedOf st uid
    rw [husers, blockedOfList_setBlocked_ne st.users uid0 v uid huid]
    rfl

/-- One fault-free `auto_block_accounts` call either leaves every lifetime
count alone, or increments exactly the targeted user's lifetime count by
exactly 1. -/
theorem applyOp_autoBlock_blockedOf (uid0 now : Nat) (today : String)
    (st : Store) (uid : Nat) :
    blockedOf (applyOp (Op.autoBlock uid0 now today) st) uid = blockedOf st uid
    ∨ (uid = uid0 ∧ ∃ b, blockedOf st uid = some b
        ∧ blockedOf (applyOp (Op.autoBlock uid0 now today) st) uid
            = some (b + 1)) := by
  have happ : applyOp (Op.autoBlock uid0 now today) st
      = (autoBlockConn uid0 now today none
          { committed := st, pending := [] }).1.committed := rfl
  rw [happ]
  have hov : overlayStore { committed := st, pending := [] } = st := rfl
  unfold autoBlockConn
  rw [hov]
  cases hlk : lookupUser st.users uid0 with
  | none => left; rfl
  | some u =>
    simp only
    split
    · split
      · rw [tryWrite_nofault]
        simp only
        rw [recordIncrement_nofault]
        rcases blockedOf_userBlocked_step
            (applyWrite (WriteOp.daily uid0 today 1)
              (applyWrite (WriteOp.daily uid0 today 0) st))
            st uid0 uid (u.blocked_count + 1) u rfl hlk with hL | ⟨h1, h2, h3⟩
        · left
          exact hL
        · right
          exact ⟨h1, u.blocked_count, h2, h3⟩
      · rw [recordIncrement_nofault]
        rcases blockedOf_userBlocked_step
            (applyWrite (WriteOp.daily uid0 today
              ((readDaily (Option.map (fun r => r.blocked)
                (lookupDaily st.daily uid0 today)) today).1 + 1)) st)
            st uid0 uid (u.blocked_count + 1) u rfl hlk with hL | ⟨h1, h2, h3⟩
        · left
          exact hL
        · right
          exact ⟨h1, u.blocked_count, h2, h3⟩
    · left
      rfl

/-- C7.  A user's lifetime blocked-count is created equal to 0 by signup
(the INSERT at main.py lines 320-323 writes `blocked_count = 0`), is a
natural number (hence never negative), and is monotonically non-decreasing:
of all the application's store operations, only the Quota Tracker's
`auto_block_accounts` mutates an existing user's lifetime count, and it
only ever adds exactly 1. -/
theorem c7_lifetime_counter_evolution (op : Op) (st : Store) (uid : Nat) :
    blockedOf (applyOp op st) uid = blockedOf st uid
      ∨ (blockedOf st uid = none ∧ (∃ e p, op = Op.signup e p)
          ∧ blockedOf (applyOp op st) uid = some 0)
      ∨ (∃ now today b, op = Op.autoBlock uid now today
          ∧ blockedOf st uid = some b
          ∧ blockedOf (applyOp op st) uid = some (b + 1)) := by
  cases op with
  | signup email password =>
    have happ : applyOp (Op.signup email password) st
        = if st.users.any (fun u => u.email == email) then st
          else { st with users := st.users ++
              [{ id := nextId st, email := email, password := password,
                 stripe_customer_id := none, blocked_count := 0 }] } := rfl
    by_cases he : (st.users.any (fun u => u.email == email)) = true
    · left
      rw [happ, if_pos he]
    · rw [happ, if_neg he]
      have hb : blockedOf { st with users := st.users ++
          [{ id := nextId st, email := email, password := password,
             stripe_customer_id := none, blocked_count := 0 }] } uid
          = blockedOfList (st.users ++
              [{ id := nextId st, email := email, password := password,
                 stripe_customer_id := none, blocked_count := 0 }]) uid := rfl
      rw [hb]
      unfold blockedOfList
      rw [lookupUser_append_single]
      cases hlk : lookupUser st.users uid with
      | some u =>
        left
        unfold blockedOf blockedOfList
        rw [hlk]
      | none =>
        by_cases hid : nextId st = uid
        · right
          left
          refine ⟨?_, ⟨email, password, rfl⟩, ?_⟩
          · unfold blockedOf blockedOfList
            rw [hlk]
            rfl
          · simp [hid]
        · left
          simp [hid]
          unfold blockedOf blockedOfList
          rw [hlk]
          rfl
  | loginOp => left; rfl
  | dashboardOp => left; rfl
  | createPaymentIntent => left; rfl
  | connectInstagram uid0 => left; rfl
  | confirmPayment uid0 amount package date => left; rfl
  | createSubscription uid0 customer =>
    left
    have happ : applyOp (Op.createSubscription uid0 customer) st
        = match lookupUser st.users uid0 with
          | none => st
          | some u =>
            if u.stripe_customer_id == none then
              { st with users := setStripe uid0 (some customer) st.users }
            else st := rfl
    rw [happ]
    cases hlk : lookupUser st.users uid0 with
    | none => rfl
    | some u =>
      simp only
      split
      · exact blockedOfList_setStripe st.users uid0 (some customer) uid
      · rfl
  | autoBlock uid0 now today =>
    rcases applyOp_autoBlock_blockedOf uid0 now today st uid with
      hL | ⟨huid, b, h1, h2⟩
    · left
      exact hL
    · right
      right
      refine ⟨now, today, b, ?_, h1, h2⟩
      rw [huid]

end FeedShield
